import Mathlib

/-!
Verification of the phosphor relay server against its specification.

The definitions below are shallow embeddings of the Go source:
* `internal/protocol/messages.go` — message type bytes and payload shapes;
* the protocol `Encode`/`Decode` pair;
* `Session` and its methods (`AddViewer`, `RemoveViewer`, `ViewerCount`,
  `Close`, `MarkDisconnected`, `ReplaceCLI`, `RotateReconnectToken`);
* the `Hub` (`Register`, `Unregister`, `Get`, `Disconnect`'s reaper task,
  `Reconnect`);
* the `AuthSessionStore` (`Create`, `Get`, `Complete`, `Consume`);
* the WebSocket handlers' dispatch and attach logic
  (`HandleCLIWebSocket`, `HandleViewerWebSocket`).

Bytes are modelled as `Nat`, Go maps as association lists keyed by `String`,
Go's `json.Marshal` as an abstract serialisation function passed in as a
parameter, and wall-clock time as a `Nat` parameter.  Mutation through
pointers is modelled by returning the updated value and writing it back
into the containing map.
-/

namespace Phosphor

/-! ### Protocol message type bytes (internal/protocol/messages.go) -/

def TypeStdout : Nat := 0x01
def TypeStdin : Nat := 0x02
def TypeResize : Nat := 0x03
def TypeHello : Nat := 0x10
def TypeWelcome : Nat := 0x11
def TypeJoin : Nat := 0x12
def TypeJoined : Nat := 0x13
def TypeReconnect : Nat := 0x14
def TypeEnd : Nat := 0x15
def TypeError : Nat := 0x16
def TypeViewerCount : Nat := 0x20
def TypeMode : Nat := 0x21
def TypePing : Nat := 0x30
def TypePong : Nat := 0x31

/-- The message type bytes defined in messages.go. -/
def definedTags : List Nat :=
  [TypeStdout, TypeStdin, TypeResize, TypeHello, TypeWelcome, TypeJoin,
   TypeJoined, TypeReconnect, TypeEnd, TypeError, TypeViewerCount, TypeMode,
   TypePing, TypePong]

/-! ### Encode / Decode (internal/protocol/encoding.go) -/

/-- The Go value passed as `payload any` to `Encode`: either a `[]byte`, a
JSON-marshallable value (abstracted over a type `α`), or Go `nil`. -/
inductive GoPayload (α : Type) where
  | bytes (data : List Nat)
  | json (v : α)
  | nil
deriving DecidableEq

/-- Embeds `Encode` from encoding.go: `[type_byte][payload]`.  For `TypeStdout` and
`TypeStdin` the payload must be a `[]byte` and is copied raw; for
`TypePing`/`TypePong`/`TypeEnd` the message is the bare type byte; otherwise
the payload is JSON-encoded.  `marshal` stands for Go's `json.Marshal`
(total here, since the structs the relay marshals never fail to marshal). -/
def Encode (marshal : GoPayload α → List Nat) (msgType : Nat)
    (payload : GoPayload α) : Except String (List Nat) :=
  if msgType = TypeStdout ∨ msgType = TypeStdin then
    match payload with
    | GoPayload.bytes data => Except.ok (msgType :: data)
    | _ => Except.error "expected bytes for data type"
  else if msgType = TypePing ∨ msgType = TypePong ∨ msgType = TypeEnd then
    Except.ok [msgType]
  else
    Except.ok (msgType :: marshal payload)

/-- Embeds `Decode` from encoding.go: splits a binary message into type byte and raw
payload; the empty message is `ErrEmptyMessage`. -/
def Decode (msg : List Nat) : Except String (Nat × List Nat) :=
  match msg with
  | [] => Except.error "empty message"
  | t :: rest => Except.ok (t, rest)

/-- A payload conforms to a tag's encoding rule: raw bytes for the data tags,
Go `nil` for the empty-payload tags, a JSON value for the rest. -/
def conforms (tag : Nat) (payload : GoPayload α) : Prop :=
  if tag = TypeStdout ∨ tag = TypeStdin then
    match payload with
    | GoPayload.bytes _ => True
    | _ => False
  else if tag = TypePing ∨ tag = TypePong ∨ tag = TypeEnd then
    match payload with
    | GoPayload.nil => True
    | _ => False
  else
    match payload with
    | GoPayload.json _ => True
    | _ => False

/-- What `Decode` should give back after `Encode`: the original bytes for raw
tags, the empty sequence for the empty-payload tags, and the marshalled bytes
(byte-equal to the serialisation of the payload, hence JSON-equivalent to the
payload) for JSON tags. -/
def expectedPayload (marshal : GoPayload α → List Nat)
    (payload : GoPayload α) : List Nat :=
  match payload with
  | GoPayload.bytes data => data
  | GoPayload.nil => []
  | GoPayload.json _ => marshal payload

/-- C3: for every defined tag and conforming payload, `Decode` after `Encode`
returns the same tag and the expected payload (byte-equal for raw tags,
byte-equal to the marshalling — hence JSON-equivalent — for JSON tags);
`Decode []` is an error; `Decode [t]` is `(t, empty)`. -/
theorem decode_encode_roundtrip (α : Type) (marshal : GoPayload α → List Nat)
    (tag : Nat) (payload : GoPayload α)
    (hTag : tag ∈ definedTags) (hConf : conforms tag payload) :
    (∃ enc, Encode marshal tag payload = Except.ok enc ∧
      Decode enc = Except.ok (tag, expectedPayload marshal payload)) ∧
    Decode ([] : List Nat) = Except.error "empty message" ∧
    (∀ t : Nat, Decode [t] = Except.ok (t, [])) := by
  refine ⟨?_, rfl, fun t => rfl⟩
  simp only [definedTags, List.mem_cons, List.not_mem_nil, or_false] at hTag
  rcases payload with data | v | _ <;>
    rcases hTag with rfl | rfl | rfl | rfl | rfl | rfl | rfl | rfl | rfl |
      rfl | rfl | rfl | rfl | rfl <;>
    first
      | exact ⟨_, rfl, rfl⟩
      | simp [conforms, TypeStdout, TypeStdin, TypeResize, TypeHello,
          TypeWelcome, TypeJoin, TypeJoined, TypeReconnect, TypeEnd, TypeError,
          TypeViewerCount, TypeMode, TypePing, TypePong] at hConf

/-- Witness for C3 at `TypeStdout` with payload bytes `[7, 8]`. -/
theorem decode_encode_roundtrip_witness :
    TypeStdout ∈ definedTags ∧
    conforms TypeStdout (GoPayload.bytes (α := Unit) [7, 8]) ∧
    ((∃ enc, Encode (fun _ => []) TypeStdout
        (GoPayload.bytes (α := Unit) [7, 8]) = Except.ok enc ∧
      Decode enc = Except.ok (TypeStdout,
        expectedPayload (fun _ => []) (GoPayload.bytes (α := Unit) [7, 8]))) ∧
    Decode ([] : List Nat) = Except.error "empty message" ∧
    (∀ t : Nat, Decode [t] = Except.ok (t, []))) :=
  ⟨by simp [definedTags], True.intro,
   decode_encode_roundtrip Unit (fun _ => []) TypeStdout
     (GoPayload.bytes [7, 8]) (by simp [definedTags]) True.intro⟩

/-! ### Hello payload (internal/protocol/messages.go) -/

/-- The `Hello` frame sent by the CLI when connecting.  `SessionID` and
`ReconnectToken` are set on reconnect attempts. -/
structure Hello where
  Token : String
  Mode : String
  Cols : Int
  Rows : Int
  Command : String
  SessionID : String
  ReconnectToken : String
deriving DecidableEq

/-! ### Session (internal/relay/session.go) -/

def maxViewersPerSession : Nat := 10

/-- Insertion into the key set of a Go map: `m[id] = conn` adds `id` to the
key set when absent and otherwise only overwrites the value. -/
def mapInsert (id : String) (m : List String) : List String :=
  if id ∈ m then m else id :: m

/-- A `Session` from session.go.  `viewers` is the key set of the
`viewers` map; the connection values, the logger and the mutex are not
modelled.  `disconnectedAt` is omitted: it is written by `MarkDisconnected`
and `ReplaceCLI` but never read anywhere in the source. -/
structure Session where
  ID : String
  OwnerProvider : String
  OwnerSub : String
  Mode : String
  Cols : Int
  Rows : Int
  Command : String
  ReconnectToken : String
  viewers : List String
  closed : Bool
  cliDisconnected : Bool
deriving DecidableEq

/-- Embeds `NewSession` from session.go.  `token` stands for the freshly generated
`generateToken()` value (randomness is abstracted: the caller supplies the
drawn token). -/
def NewSession (id ownerProvider ownerSub : String) (hello : Hello)
    (token : String) : Session :=
  { ID := id
    OwnerProvider := ownerProvider
    OwnerSub := ownerSub
    Mode := hello.Mode
    Cols := hello.Cols
    Rows := hello.Rows
    Command := hello.Command
    ReconnectToken := token
    viewers := []
    closed := false
    cliDisconnected := false }

/-- Embeds `MarkDisconnected`: sets `cliDisconnected` (the broadcast of
`Reconnect{status:"disconnected"}` to viewers does not change session
state). -/
def Session.MarkDisconnected (s : Session) : Session :=
  { s with cliDisconnected := true }

/-- Embeds `ReplaceCLI`: swaps the CLI connection and clears `cliDisconnected`. -/
def Session.ReplaceCLI (s : Session) : Session :=
  { s with cliDisconnected := false }

/-- Embeds `IsDisconnected`. -/
def Session.IsDisconnected (s : Session) : Bool :=
  s.cliDisconnected

/-- Embeds `RotateReconnectToken`: replaces the token with a freshly generated one
(supplied by the caller, abstracting `generateToken()`). -/
def Session.RotateReconnectToken (s : Session) (token : String) : Session :=
  { s with ReconnectToken := token }

/-- Embeds `AddViewer`: fails when the session is closed or the viewer map is at
`maxViewersPerSession`; otherwise inserts.  Returns the updated session and
the Go return value. -/
def Session.AddViewer (s : Session) (id : String) : Session × Bool :=
  if s.closed = true ∨ maxViewersPerSession ≤ s.viewers.length then
    (s, false)
  else
    ({ s with viewers := mapInsert id s.viewers }, true)

/-- Embeds `RemoveViewer`: deletes the viewer key. -/
def Session.RemoveViewer (s : Session) (id : String) : Session :=
  { s with viewers := s.viewers.erase id }

/-- Embeds `ViewerCount`. -/
def Session.ViewerCount (s : Session) : Nat :=
  s.viewers.length

/-- A write observable by one viewer connection during `Close`. -/
inductive ViewerSignal where
  | frame (data : List Nat)
  | closeNormal
deriving DecidableEq

/-- The encoded `End` frame `Encode(TypeEnd, nil)`: the bare type byte. -/
def endMsg : List Nat := [TypeEnd]

/-- Embeds `Close` from session.go: a no-op when already closed; otherwise sets
`closed`, writes the `End` frame then a normal close to every viewer, and
clears the viewer map.  The second component lists the writes each viewer
receives, in order. -/
def Session.Close (s : Session) :
    Session × List (String × List ViewerSignal) :=
  if s.closed then (s, [])
  else
    ({ s with closed := true, viewers := [] },
     s.viewers.map (fun v =>
       (v, [ViewerSignal.frame endMsg, ViewerSignal.closeNormal])))

/-- Models by `Session.Resize` the producer handler's mutation of `Cols`/`Rows`
on a `Resize` frame (handler_cli.go). -/
def Session.Resize (s : Session) (cols rows : Int) : Session :=
  { s with Cols := cols, Rows := rows }

/-- The sessions reachable from `NewSession` by the mutations the relay
performs: viewer attach/detach, close, producer disconnect/reconnect, token
rotation and terminal resizes. -/
inductive Reachable : Session → Prop where
  | new (id ownerProvider ownerSub : String) (hello : Hello) (token : String) :
      Reachable (NewSession id ownerProvider ownerSub hello token)
  | addViewer {s : Session} (v : String) :
      Reachable s → Reachable (s.AddViewer v).1
  | removeViewer {s : Session} (v : String) :
      Reachable s → Reachable (s.RemoveViewer v)
  | close {s : Session} : Reachable s → Reachable s.Close.1
  | markDisconnected {s : Session} :
      Reachable s → Reachable s.MarkDisconnected
  | replaceCLI {s : Session} : Reachable s → Reachable s.ReplaceCLI
  | rotate {s : Session} (token : String) :
      Reachable s → Reachable (s.RotateReconnectToken token)
  | resize {s : Session} (cols rows : Int) :
      Reachable s → Reachable (s.Resize cols rows)

/-- Invariant (a) of the spec: the viewer map never exceeds
`maxViewersPerSession` on any reachable session. -/
theorem reachable_viewers_le {s : Session} (h : Reachable s) :
    s.viewers.length ≤ maxViewersPerSession := by
  induction h with
  | new id ownerProvider ownerSub hello token => simp [NewSession]
  | addViewer v _ ih =>
      rename_i s _
      unfold Session.AddViewer
      by_cases hc : s.closed = true ∨ maxViewersPerSession ≤ s.viewers.length
      · simpa [hc] using ih
      · rw [if_neg hc]
        push_neg at hc
        by_cases hv : v ∈ s.viewers
        · simpa [mapInsert, hv] using ih
        · simpa [mapInsert, hv] using hc.2
  | removeViewer v _ ih =>
      rename_i s _
      exact le_trans (by simpa [Session.RemoveViewer] using
        List.length_erase_le v s.viewers) ih
  | close _ ih =>
      rename_i s _
      by_cases hc : s.closed
      · simpa [Session.Close, hc] using ih
      · simp [Session.Close, hc]
  | markDisconnected _ ih => simpa [Session.MarkDisconnected] using ih
  | replaceCLI _ ih => simpa [Session.ReplaceCLI] using ih
  | rotate token _ ih => simpa [Session.RotateReconnectToken] using ih
  | resize cols rows _ ih => simpa [Session.Resize] using ih

/-- A concrete `Hello` as the CLI sends it for a fresh pty session. -/
def sampleHello : Hello :=
  { Token := "", Mode := "pty", Cols := 80, Rows := 24, Command := "bash",
    SessionID := "", ReconnectToken := "" }

/-- A freshly created session used as a concrete evaluation point. -/
def sampleSession : Session :=
  NewSession "sess1" "google" "user1" sampleHello "tok0"

/-- C4: every reachable session has at most `maxViewersPerSession` viewers;
`AddViewer` returns `false` exactly when the session is closed or the viewer
count equals `maxViewersPerSession`; on `false` the session is unchanged, and
on `true` the given viewer is in the viewer map. -/
theorem addViewer_cap_spec (s : Session) (v : String) (h : Reachable s) :
    s.viewers.length ≤ maxViewersPerSession ∧
    ((s.AddViewer v).2 = false ↔
      (s.closed = true ∨ s.viewers.length = maxViewersPerSession)) ∧
    ((s.AddViewer v).2 = false → (s.AddViewer v).1 = s) ∧
    ((s.AddViewer v).2 = true → v ∈ (s.AddViewer v).1.viewers) := by
  have hle := reachable_viewers_le h
  by_cases hc : s.closed = true ∨ maxViewersPerSession ≤ s.viewers.length
  · refine ⟨hle, ?_, ?_, ?_⟩
    · simp only [Session.AddViewer, if_pos hc]
      constructor
      · intro _
        rcases hc with h1 | h1
        · exact Or.inl h1
        · exact Or.inr (le_antisymm hle h1)
      · intro _; trivial
    · intro _
      simp [Session.AddViewer, hc]
    · simp [Session.AddViewer, hc]
  · have hres : s.AddViewer v =
        ({ s with viewers := mapInsert v s.viewers }, true) := by
      rw [Session.AddViewer, if_neg hc]
    have hc' := hc
    push_neg at hc'
    refine ⟨hle, ?_, ?_, ?_⟩
    · rw [hres]
      simp [hc'.1, Nat.ne_of_lt hc'.2]
    · rw [hres]
      simp
    · rw [hres]
      intro _
      simp only [mapInsert]
      by_cases hv : v ∈ s.viewers <;> simp [hv]

/-- Witness for C4 at the freshly created `sampleSession` and viewer "v1". -/
theorem addViewer_cap_spec_witness :
    Reachable sampleSession ∧
    (sampleSession.viewers.length ≤ maxViewersPerSession ∧
     ((sampleSession.AddViewer "v1").2 = false ↔
       (sampleSession.closed = true ∨
        sampleSession.viewers.length = maxViewersPerSession)) ∧
     ((sampleSession.AddViewer "v1").2 = false →
       (sampleSession.AddViewer "v1").1 = sampleSession) ∧
     ((sampleSession.AddViewer "v1").2 = true →
       "v1" ∈ (sampleSession.AddViewer "v1").1.viewers)) :=
  ⟨Reachable.new "sess1" "google" "user1" sampleHello "tok0",
   addViewer_cap_spec sampleSession "v1"
     (Reachable.new "sess1" "google" "user1" sampleHello "tok0")⟩

/-- C5: on a not-yet-closed session, `Close` sets `closed`, writes the `End`
frame followed by a normal close to every viewer, and clears the viewer map;
a second `Close` is a no-op (same state, no writes); afterwards every
`AddViewer` returns `false` and `ViewerCount` is `0`. -/
theorem close_idempotent_spec (s : Session) (h : s.closed = false) :
    s.Close.1.closed = true ∧
    s.Close.2 = s.viewers.map
      (fun v => (v, [ViewerSignal.frame endMsg, ViewerSignal.closeNormal])) ∧
    s.Close.1.viewers = [] ∧
    s.Close.1.Close = (s.Close.1, []) ∧
    (∀ v, (s.Close.1.AddViewer v).2 = false) ∧
    s.Close.1.ViewerCount = 0 := by
  simp [Session.Close, h, Session.AddViewer, Session.ViewerCount]

/-- Witness for C5 at a session holding one viewer. -/
theorem close_idempotent_spec_witness :
    (sampleSession.AddViewer "v1").1.closed = false ∧
    ((sampleSession.AddViewer "v1").1.Close.1.closed = true ∧
     (sampleSession.AddViewer "v1").1.Close.2 =
       (sampleSession.AddViewer "v1").1.viewers.map
         (fun v =>
           (v, [ViewerSignal.frame endMsg, ViewerSignal.closeNormal])) ∧
     (sampleSession.AddViewer "v1").1.Close.1.viewers = [] ∧
     (sampleSession.AddViewer "v1").1.Close.1.Close =
       ((sampleSession.AddViewer "v1").1.Close.1, []) ∧
     (∀ v, ((sampleSession.AddViewer "v1").1.Close.1.AddViewer v).2 = false) ∧
     (sampleSession.AddViewer "v1").1.Close.1.ViewerCount = 0) :=
  ⟨rfl, close_idempotent_spec (sampleSession.AddViewer "v1").1 rfl⟩

/-! ### Go maps as association lists -/

/-- Lookup in a Go map modelled as an association list. -/
def GoMap.get (m : List (String × α)) (id : String) : Option α :=
  match m with
  | [] => none
  | p :: rest => if p.1 = id then some p.2 else GoMap.get rest id

/-- Go map assignment `m[id] = v`: replaces the binding when present,
otherwise adds it. -/
def GoMap.set (m : List (String × α)) (id : String) (v : α) :
    List (String × α) :=
  match m with
  | [] => [(id, v)]
  | p :: rest =>
      if p.1 = id then (id, v) :: rest else p :: GoMap.set rest id v

/-- Go map `delete(m, id)`. -/
def GoMap.delete (m : List (String × α)) (id : String) :
    List (String × α) :=
  match m with
  | [] => []
  | p :: rest =>
      if p.1 = id then GoMap.delete rest id else p :: GoMap.delete rest id

theorem GoMap.get_set_self (m : List (String × α)) (id : String) (v : α) :
    GoMap.get (GoMap.set m id v) id = some v := by
  induction m with
  | nil => simp [GoMap.set, GoMap.get]
  | cons p rest ih =>
      by_cases hp : p.1 = id <;> simp [GoMap.set, GoMap.get, hp, ih]

theorem GoMap.get_delete_self (m : List (String × α)) (id : String) :
    GoMap.get (GoMap.delete m id) id = none := by
  induction m with
  | nil => simp [GoMap.delete, GoMap.get]
  | cons p rest ih =>
      by_cases hp : p.1 = id <;> simp [GoMap.delete, GoMap.get, hp, ih]

/-! ### Hub (internal/relay/hub.go) -/

/-- The Hub's `sessions` map (the logger and mutex are not modelled). -/
def Hub := List (String × Session)

/-- Embeds `Hub.Get`. -/
def Hub.Get (h : Hub) (sessionID : String) : Option Session :=
  GoMap.get h sessionID

/-- Embeds `Hub.Register`. -/
def Hub.Register (h : Hub) (s : Session) : Hub :=
  GoMap.set h s.ID s

/-- Embeds `Hub.Unregister`: removes the session from the map and `Close`s it.
The second component carries the writes `Close` makes to the viewers. -/
def Hub.Unregister (h : Hub) (sessionID : String) :
    Hub × List (String × List ViewerSignal) :=
  match GoMap.get h sessionID with
  | none => (h, [])
  | some s => (GoMap.delete h sessionID, s.Close.2)

/-- The immediate effect of `Hub.Disconnect`: look the session up and
`MarkDisconnected` it (through the pointer, modelled by writing back).
The deferred goroutine it spawns is `Hub.reapAfterGrace` below. -/
def Hub.Disconnect (h : Hub) (sessionID : String) : Hub :=
  match GoMap.get h sessionID with
  | none => h
  | some s => GoMap.set h sessionID s.MarkDisconnected

/-- The body of the goroutine `Hub.Disconnect` spawns, at the moment the
grace period has elapsed: if the session is still marked disconnected,
unregister it.  (The Go closure captures the session pointer; the lookup here
is equivalent while `sessionID` stays bound to that session, and `Unregister`
of an absent id is a no-op in both readings.) -/
def Hub.reapAfterGrace (h : Hub) (sessionID : String) : Hub :=
  match GoMap.get h sessionID with
  | none => h
  | some s =>
      if s.IsDisconnected then (Hub.Unregister h sessionID).1 else h

/-- Embeds `Hub.Reconnect`: replaces the CLI connection on a disconnected session;
returns false when the session is absent or not disconnected. -/
def Hub.Reconnect (h : Hub) (sessionID : String) : Hub × Bool :=
  match GoMap.get h sessionID with
  | none => (h, false)
  | some s =>
      if s.IsDisconnected = false then (h, false)
      else (GoMap.set h sessionID s.ReplaceCLI, true)

/-- C7: after `Disconnect` the session is still present and marked
disconnected; the reaper firing with no intervening reconnect removes it;
a `Reconnect` within the grace period succeeds, leaves the session present
with `producerDisconnected` false, and the reaper then does nothing; and
`Reconnect` returns true exactly on sessions that exist and are currently
marked disconnected. -/
theorem disconnect_grace_spec (h : Hub) (id : String) (s : Session)
    (hget : Hub.Get h id = some s) :
    (Hub.Get (Hub.Disconnect h id) id = some s.MarkDisconnected ∧
     s.MarkDisconnected.cliDisconnected = true) ∧
    Hub.Get (Hub.reapAfterGrace (Hub.Disconnect h id) id) id = none ∧
    ((Hub.Reconnect (Hub.Disconnect h id) id).2 = true ∧
     Hub.Get (Hub.Reconnect (Hub.Disconnect h id) id).1 id =
       some s.MarkDisconnected.ReplaceCLI ∧
     s.MarkDisconnected.ReplaceCLI.cliDisconnected = false ∧
     Hub.reapAfterGrace (Hub.Reconnect (Hub.Disconnect h id) id).1 id =
       (Hub.Reconnect (Hub.Disconnect h id) id).1) ∧
    (∀ h' : Hub, (Hub.Reconnect h' id).2 = true ↔
      ∃ s', Hub.Get h' id = some s' ∧ s'.IsDisconnected = true) := by
  have hD : Hub.Disconnect h id = GoMap.set h id s.MarkDisconnected := by
    simp [Hub.Disconnect, Hub.Get] at hget ⊢
    rw [hget]
  have hDget : Hub.Get (Hub.Disconnect h id) id = some s.MarkDisconnected := by
    rw [hD]
    exact GoMap.get_set_self h id s.MarkDisconnected
  refine ⟨⟨hDget, rfl⟩, ?_, ⟨?_, ?_, rfl, ?_⟩, ?_⟩
  · have hgd := hDget
    simp only [Hub.Get] at hgd
    simp [Hub.reapAfterGrace, hgd, Session.IsDisconnected,
      Session.MarkDisconnected, Hub.Unregister, Hub.Get,
      GoMap.get_delete_self]
  · have hgd := hDget
    simp only [Hub.Get] at hgd
    simp [Hub.Reconnect, hgd, Session.IsDisconnected, Session.MarkDisconnected]
  · have hgd := hDget
    simp only [Hub.Get] at hgd
    simp [Hub.Reconnect, hgd, Session.IsDisconnected, Session.MarkDisconnected,
      Hub.Get, GoMap.get_set_self]
  · have hgd := hDget
    simp only [Hub.Get] at hgd
    have hrec : Hub.Reconnect (Hub.Disconnect h id) id =
        (GoMap.set (Hub.Disconnect h id) id s.MarkDisconnected.ReplaceCLI,
         true) := by
      simp [Hub.Reconnect, hgd, Session.IsDisconnected,
        Session.MarkDisconnected]
    rw [hrec]
    simp [Hub.reapAfterGrace, GoMap.get_set_self, Session.IsDisconnected,
      Session.ReplaceCLI, Session.MarkDisconnected]
  · intro h'
    simp only [Hub.Reconnect, Hub.Get]
    cases hg : GoMap.get h' id with
    | none => simp
    | some s' =>
        simp only [Option.some.injEq]
        constructor
        · intro htrue
          by_cases hd : s'.IsDisconnected = false
          · simp [hd] at htrue
          · refine ⟨s', rfl, ?_⟩
            cases hval : s'.IsDisconnected
            · exact absurd hval hd
            · rfl
        · rintro ⟨x, hx, hxd⟩
          subst hx
          simp [hxd]

/-- Witness for C7: a one-session hub holding `sampleSession`. -/
theorem disconnect_grace_spec_witness :
    Hub.Get [("sess1", sampleSession)] "sess1" = some sampleSession ∧
    ((Hub.Get (Hub.Disconnect [("sess1", sampleSession)] "sess1") "sess1" =
        some sampleSession.MarkDisconnected ∧
      sampleSession.MarkDisconnected.cliDisconnected = true) ∧
     Hub.Get (Hub.reapAfterGrace
       (Hub.Disconnect [("sess1", sampleSession)] "sess1") "sess1") "sess1" =
         none ∧
     ((Hub.Reconnect (Hub.Disconnect [("sess1", sampleSession)] "sess1")
         "sess1").2 = true ∧
      Hub.Get (Hub.Reconnect (Hub.Disconnect [("sess1", sampleSession)]
          "sess1") "sess1").1 "sess1" =
        some sampleSession.MarkDisconnected.ReplaceCLI ∧
      sampleSession.MarkDisconnected.ReplaceCLI.cliDisconnected = false ∧
      Hub.reapAfterGrace (Hub.Reconnect (Hub.Disconnect
          [("sess1", sampleSession)] "sess1") "sess1").1 "sess1" =
        (Hub.Reconnect (Hub.Disconnect [("sess1", sampleSession)] "sess1")
          "sess1").1) ∧
     (∀ h' : Hub, (Hub.Reconnect h' "sess1").2 = true ↔
       ∃ s', Hub.Get h' "sess1" = some s' ∧ s'.IsDisconnected = true)) :=
  ⟨by simp [Hub.Get, GoMap.get],
   disconnect_grace_spec [("sess1", sampleSession)] "sess1" sampleSession
     (by simp [Hub.Get, GoMap.get])⟩

/-! ### Viewer handler (internal/relay/handler_viewer.go) -/

/-- The frame the viewer handler writes back after the attach phase. -/
inductive ViewerReply where
  | errorFrame (code message : String)
  | joined (mode : String) (cols rows : Int) (command : String)
deriving DecidableEq

/-- The attach phase of `HandleViewerWebSocket`, after `Join` decoding and
token verification produced the viewer identity
`(viewerProvider, viewerSub)`: session lookup, ownership check, `AddViewer`,
and the reply frame.  `viewerID` is the generated nanoid. -/
def HandleViewerAttach (h : Hub)
    (sessionID viewerProvider viewerSub viewerID : String) :
    Hub × ViewerReply :=
  match Hub.Get h sessionID with
  | none => (h, ViewerReply.errorFrame "session_not_found" "session not found")
  | some session =>
      if viewerProvider ≠ session.OwnerProvider ∨
          viewerSub ≠ session.OwnerSub then
        (h, ViewerReply.errorFrame "forbidden" "you do not own this session")
      else
        match session.AddViewer viewerID with
        | (session', true) =>
            (GoMap.set h sessionID session',
             ViewerReply.joined session'.Mode session'.Cols session'.Rows
               session'.Command)
        | (_, false) =>
            (h, ViewerReply.errorFrame "session_full" "maximum viewers reached")

/-- C1: a viewer attach on an existing session whose authenticated
`(provider, sub)` differs from the session's owner pair gets the `forbidden`
Error frame, the hub is unchanged, and in particular the session's viewer
set is unchanged. -/
theorem viewer_forbidden_spec (h : Hub)
    (sessionID viewerProvider viewerSub viewerID : String) (s : Session)
    (hget : Hub.Get h sessionID = some s)
    (hdiff : (viewerProvider, viewerSub) ≠ (s.OwnerProvider, s.OwnerSub)) :
    HandleViewerAttach h sessionID viewerProvider viewerSub viewerID =
      (h, ViewerReply.errorFrame "forbidden" "you do not own this session") ∧
    ((HandleViewerAttach h sessionID viewerProvider viewerSub
        viewerID).1.Get sessionID).map Session.viewers = some s.viewers := by
  have hcond : viewerProvider ≠ s.OwnerProvider ∨ viewerSub ≠ s.OwnerSub := by
    by_contra hcon
    push_neg at hcon
    exact hdiff (by rw [hcon.1, hcon.2])
  have hres : HandleViewerAttach h sessionID viewerProvider viewerSub
      viewerID =
      (h, ViewerReply.errorFrame "forbidden" "you do not own this session") := by
    unfold HandleViewerAttach
    rw [hget]
    exact if_pos hcond
  exact ⟨hres, by rw [hres, hget]; rfl⟩

/-- Witness for C1: owner is `("google", "user1")`, the viewer authenticated
as `("github", "mallory")`. -/
theorem viewer_forbidden_spec_witness :
    Hub.Get [("sess1", sampleSession)] "sess1" = some sampleSession ∧
    ("github", "mallory") ≠
      (sampleSession.OwnerProvider, sampleSession.OwnerSub) ∧
    (HandleViewerAttach [("sess1", sampleSession)] "sess1" "github" "mallory"
        "v9" =
      ([("sess1", sampleSession)],
       ViewerReply.errorFrame "forbidden" "you do not own this session") ∧
     ((HandleViewerAttach [("sess1", sampleSession)] "sess1" "github"
         "mallory" "v9").1.Get "sess1").map Session.viewers =
       some sampleSession.viewers) :=
  ⟨by simp [Hub.Get, GoMap.get], by decide,
   viewer_forbidden_spec [("sess1", sampleSession)] "sess1" "github" "mallory"
     "v9" sampleSession (by simp [Hub.Get, GoMap.get]) (by decide)⟩

/-! ### CLI handler dispatch (internal/relay/handler_cli.go) -/

/-- Which path `HandleCLIWebSocket` takes after decoding `Hello` and
verifying the token. -/
inductive HelloDispatch where
  | reconnect (sessionID : String)
  | newSession
deriving DecidableEq

/-- The dispatch in `HandleCLIWebSocket`: the reconnect path — which looks up
`hello.SessionID` in the hub — is taken when `hello.SessionID` and
`hello.ReconnectToken` are both non-empty; otherwise a new session is
created. -/
def dispatchHello (hello : Hello) : HelloDispatch :=
  if hello.SessionID ≠ "" ∧ hello.ReconnectToken ≠ "" then
    HelloDispatch.reconnect hello.SessionID
  else
    HelloDispatch.newSession

/-- A `Hello` carrying a session id but an empty reconnect token. -/
def helloOnlySession : Hello :=
  { Token := "t", Mode := "pty", Cols := 80, Rows := 24, Command := "bash",
    SessionID := "sess1", ReconnectToken := "" }

/-- Counterexample to C2 as stated: `helloOnlySession` has a non-empty
`session_id` (so "either field non-empty" holds) yet is dispatched to the
new-session path, because the handler requires both fields non-empty. -/
theorem dispatch_either_counterexample :
    ¬ (∀ hello : Hello,
        (hello.SessionID ≠ "" ∨ hello.ReconnectToken ≠ "") →
        dispatchHello hello = HelloDispatch.reconnect hello.SessionID) := by
  intro hall
  have h1 := hall helloOnlySession (Or.inl (by decide))
  have h2 : dispatchHello helloOnlySession = HelloDispatch.newSession := by
    simp [dispatchHello, helloOnlySession]
  rw [h1] at h2
  cases h2

/-- C2 amended: the handler treats the frame as a reconnect attempt
(dispatching to the path that looks up `hello.SessionID`) exactly when both
`session_id` and `reconnect_token` are non-empty; otherwise it creates a new
session. -/
theorem dispatch_both_spec (hello : Hello) :
    (dispatchHello hello = HelloDispatch.reconnect hello.SessionID ↔
      (hello.SessionID ≠ "" ∧ hello.ReconnectToken ≠ "")) ∧
    (¬(hello.SessionID ≠ "" ∧ hello.ReconnectToken ≠ "") →
      dispatchHello hello = HelloDispatch.newSession) := by
  unfold dispatchHello
  by_cases hc : hello.SessionID ≠ "" ∧ hello.ReconnectToken ≠ "" <;>
    simp [hc]

/-- Witness for the amended C2 at `helloOnlySession`. -/
theorem dispatch_both_spec_witness :
    ((dispatchHello helloOnlySession =
        HelloDispatch.reconnect helloOnlySession.SessionID ↔
      (helloOnlySession.SessionID ≠ "" ∧
       helloOnlySession.ReconnectToken ≠ "")) ∧
     (¬(helloOnlySession.SessionID ≠ "" ∧
        helloOnlySession.ReconnectToken ≠ "") →
      dispatchHello helloOnlySession = HelloDispatch.newSession)) :=
  dispatch_both_spec helloOnlySession

/-! ### Viewer read loop (internal/relay/handler_viewer.go) -/

/-- One iteration of the viewer read loop on a decoded frame.  The first
component is the message forwarded to the producer via `SendToCLI` (if any);
the second is what the loop writes back to the viewer — always `none`, since
no branch of the switch writes to the viewer connection. -/
def viewerLoopStep (session : Session) (msgType : Nat)
    (payload : List Nat) : Option (Nat × List Nat) × Option (List Nat) :=
  if msgType = TypeStdin then
    if session.Mode = "pty" then (some (TypeStdin, payload), none)
    else (none, none)
  else if msgType = TypeResize then
    (some (TypeResize, payload), none)
  else
    (none, none)

/-- C9: an inbound `Stdin` frame is forwarded to the producer when the
session mode is "pty", and silently dropped — nothing sent to the producer,
no error to the viewer — when the mode is "pipe". -/
theorem viewer_stdin_mode_spec (session : Session) (payload : List Nat) :
    (session.Mode = "pty" →
      viewerLoopStep session TypeStdin payload =
        (some (TypeStdin, payload), none)) ∧
    (session.Mode = "pipe" →
      viewerLoopStep session TypeStdin payload = (none, none)) := by
  constructor <;> intro hm <;> simp [viewerLoopStep, hm]

/-- A pipe-mode session used as a concrete evaluation point. -/
def samplePipeSession : Session :=
  NewSession "sess2" "google" "user1"
    { sampleHello with Mode := "pipe" } "tok1"

/-- Witness for C9 at a pty session and a pipe session. -/
theorem viewer_stdin_mode_spec_witness :
    (sampleSession.Mode = "pty" ∧
     viewerLoopStep sampleSession TypeStdin [65] =
       (some (TypeStdin, [65]), none)) ∧
    (samplePipeSession.Mode = "pipe" ∧
     viewerLoopStep samplePipeSession TypeStdin [65] = (none, none)) :=
  ⟨⟨rfl, (viewer_stdin_mode_spec sampleSession [65]).1 rfl⟩,
   ⟨rfl, (viewer_stdin_mode_spec samplePipeSession [65]).2 rfl⟩⟩

/-! ### CLI reconnect path (internal/relay/handler_cli.go) -/

/-- The frame the CLI handler writes back after the Hello phase. -/
inductive CLIReply where
  | errorFrame (code message : String)
  | welcome (sessionID viewURL reconnectToken : String)
deriving DecidableEq

/-- The reconnect path of `HandleCLIWebSocket` (taken when both
`hello.SessionID` and `hello.ReconnectToken` are non-empty), after token
verification established the producer identity `(ownerProvider, ownerSub)`.
The constant-time token compare is equality on the modelled strings;
`freshToken` is the value `generateToken()` draws inside
`RotateReconnectToken`; the pointer mutations of `Reconnect` and
`RotateReconnectToken` are written back into the hub. -/
def HandleCLIReconnect (h : Hub) (hello : Hello)
    (ownerProvider ownerSub freshToken baseURL : String) : Hub × CLIReply :=
  match Hub.Get h hello.SessionID with
  | none =>
      (h, CLIReply.errorFrame "session_not_found"
        "session does not exist or has expired")
  | some existing =>
      if existing.OwnerProvider ≠ ownerProvider ∨
          existing.OwnerSub ≠ ownerSub then
        (h, CLIReply.errorFrame "auth_failed"
          "session belongs to a different user")
      else if existing.ReconnectToken ≠ hello.ReconnectToken then
        (h, CLIReply.errorFrame "invalid_token" "invalid reconnect token")
      else
        match Hub.Reconnect h hello.SessionID with
        | (_, false) =>
            (h, CLIReply.errorFrame "reconnect_failed"
              "session is not in a disconnected state")
        | (h1, true) =>
            let sess := (existing.ReplaceCLI).RotateReconnectToken freshToken
            (GoMap.set h1 hello.SessionID sess,
             CLIReply.welcome hello.SessionID
               (baseURL ++ "/session/" ++ hello.SessionID)
               sess.ReconnectToken)

/-- C6: a successful reconnect rotates the token — the session's stored
token and the one in the `Welcome` frame become `freshToken`, which differs
from the token used to reconnect — the `Welcome` frame carries the original
session id, and a further reconnect attempt presenting the prior token gets
the `invalid_token` Error frame. -/
theorem reconnect_rotates_token (h : Hub) (hello hello2 : Hello)
    (p u freshToken freshToken2 baseURL : String) (s : Session)
    (hget : Hub.Get h hello.SessionID = some s)
    (hp : s.OwnerProvider = p) (hu : s.OwnerSub = u)
    (htok : s.ReconnectToken = hello.ReconnectToken)
    (hdisc : s.cliDisconnected = true)
    (hfresh : freshToken ≠ hello.ReconnectToken)
    (hsame : hello2.SessionID = hello.SessionID)
    (hold : hello2.ReconnectToken = hello.ReconnectToken) :
    ∃ h1 : Hub,
      HandleCLIReconnect h hello p u freshToken baseURL =
        (h1, CLIReply.welcome hello.SessionID
          (baseURL ++ "/session/" ++ hello.SessionID) freshToken) ∧
      (Hub.Get h1 hello.SessionID).map Session.ReconnectToken =
        some freshToken ∧
      freshToken ≠ hello.ReconnectToken ∧
      HandleCLIReconnect h1 hello2 p u freshToken2 baseURL =
        (h1, CLIReply.errorFrame "invalid_token" "invalid reconnect token") := by
  have hrec : Hub.Reconnect h hello.SessionID =
      (GoMap.set h hello.SessionID s.ReplaceCLI, true) := by
    simp only [Hub.Reconnect, Hub.Get] at hget ⊢
    rw [hget]
    simp [Session.IsDisconnected, hdisc]
  have hfirst : HandleCLIReconnect h hello p u freshToken baseURL =
      (GoMap.set (GoMap.set h hello.SessionID s.ReplaceCLI) hello.SessionID
         (s.ReplaceCLI.RotateReconnectToken freshToken),
       CLIReply.welcome hello.SessionID
         (baseURL ++ "/session/" ++ hello.SessionID) freshToken) := by
    simp only [HandleCLIReconnect, hget]
    simp [hp, hu, htok, hrec, Session.RotateReconnectToken]
  refine ⟨_, hfirst, ?_, hfresh, ?_⟩
  · rw [Hub.Get, GoMap.get_set_self]
    rfl
  · simp only [HandleCLIReconnect, Hub.Get, hsame, GoMap.get_set_self]
    simp [Session.ReplaceCLI, Session.RotateReconnectToken, hp, hu, hold,
      hfresh]

/-- A disconnected session holding reconnect token "tokOld". -/
def sampleDiscSession : Session :=
  (NewSession "sess1" "google" "user1" sampleHello "tokOld").MarkDisconnected

/-- A reconnect `Hello` presenting "tokOld" for session "sess1". -/
def helloReconnect : Hello :=
  { Token := "t", Mode := "pty", Cols := 80, Rows := 24, Command := "bash",
    SessionID := "sess1", ReconnectToken := "tokOld" }

/-- Witness for C6: reconnecting to `sampleDiscSession` with "tokOld" while
`generateToken()` draws "tokNew". -/
theorem reconnect_rotates_token_witness :
    Hub.Get [("sess1", sampleDiscSession)] helloReconnect.SessionID =
      some sampleDiscSession ∧
    sampleDiscSession.OwnerProvider = "google" ∧
    sampleDiscSession.OwnerSub = "user1" ∧
    sampleDiscSession.ReconnectToken = helloReconnect.ReconnectToken ∧
    sampleDiscSession.cliDisconnected = true ∧
    "tokNew" ≠ helloReconnect.ReconnectToken ∧
    helloReconnect.SessionID = helloReconnect.SessionID ∧
    helloReconnect.ReconnectToken = helloReconnect.ReconnectToken ∧
    (∃ h1 : Hub,
      HandleCLIReconnect [("sess1", sampleDiscSession)] helloReconnect
          "google" "user1" "tokNew" "http://test" =
        (h1, CLIReply.welcome helloReconnect.SessionID
          ("http://test" ++ "/session/" ++ helloReconnect.SessionID)
          "tokNew") ∧
      (Hub.Get h1 helloReconnect.SessionID).map Session.ReconnectToken =
        some "tokNew" ∧
      "tokNew" ≠ helloReconnect.ReconnectToken ∧
      HandleCLIReconnect h1 helloReconnect "google" "user1" "tokNew2"
          "http://test" =
        (h1, CLIReply.errorFrame "invalid_token" "invalid reconnect token")) :=
  ⟨by simp [Hub.Get, GoMap.get, helloReconnect], rfl, rfl, rfl, rfl,
   by decide, rfl, rfl,
   reconnect_rotates_token [("sess1", sampleDiscSession)] helloReconnect
     helloReconnect "google" "user1" "tokNew" "tokNew2" "http://test"
     sampleDiscSession (by simp [Hub.Get, GoMap.get, helloReconnect]) rfl rfl
     rfl rfl (by decide) rfl rfl⟩

/-! ### AuthSessionStore (internal/relay/auth_sessions.go) -/

/-- A pending browser-auth flow entry.  `CreatedAt` is a timestamp in
abstract time units; `IDToken` is empty until the callback completes. -/
structure AuthSession where
  ID : String
  Provider : String
  CodeVerifier : String
  CreatedAt : Nat
  IDToken : String
deriving DecidableEq

/-- The store: the `sessions` map and the TTL.  The mutex is not modelled;
the background cleanup goroutine is `cleanupSweep` below. -/
structure AuthSessionStore where
  sessions : List (String × AuthSession)
  ttl : Nat
deriving DecidableEq

/-- Embeds `AuthSessionStore.Get`: returns the entry if it exists and has not
expired; an entry older than the TTL is deleted and reported absent.
`now` stands for `time.Now()`. -/
def AuthSessionStore.Get (st : AuthSessionStore) (id : String) (now : Nat) :
    AuthSessionStore × Option AuthSession :=
  match GoMap.get st.sessions id with
  | none => (st, none)
  | some sess =>
      if st.ttl < now - sess.CreatedAt then
        ({ st with sessions := GoMap.delete st.sessions id }, none)
      else
        (st, some sess)

/-- Embeds `AuthSessionStore.Complete`: sets the ID token when the entry exists. -/
def AuthSessionStore.Complete (st : AuthSessionStore) (id idToken : String) :
    AuthSessionStore :=
  match GoMap.get st.sessions id with
  | none => st
  | some sess =>
      { st with sessions :=
          GoMap.set st.sessions id { sess with IDToken := idToken } }

/-- Embeds `AuthSessionStore.Consume`: returns the ID token and deletes the entry;
present only when the entry exists and its token is non-empty.  There is no
TTL check here. -/
def AuthSessionStore.Consume (st : AuthSessionStore) (id : String) :
    AuthSessionStore × String × Bool :=
  match GoMap.get st.sessions id with
  | none => (st, "", false)
  | some sess =>
      if sess.IDToken = "" then (st, "", false)
      else
        ({ st with sessions := GoMap.delete st.sessions id },
         sess.IDToken, true)

/-- One sweep of the background `cleanup` goroutine: removes every entry
older than the TTL. -/
def AuthSessionStore.cleanupSweep (st : AuthSessionStore) (now : Nat) :
    AuthSessionStore :=
  { st with sessions :=
      st.sessions.filter (fun p => decide (now - p.2.CreatedAt ≤ st.ttl)) }

/-- C8: `Consume` succeeds only on an existing entry with a non-empty
`idToken`; on success it deletes the entry, so a second `Consume` of the
same id returns `("", false)` — the token is returned exactly once. -/
theorem consume_single_use (st st' : AuthSessionStore) (id t : String)
    (hsucc : st.Consume id = (st', t, true)) :
    (∃ sess, GoMap.get st.sessions id = some sess ∧
      sess.IDToken = t ∧ t ≠ "") ∧
    GoMap.get st'.sessions id = none ∧
    st'.Consume id = (st', "", false) := by
  cases hg : GoMap.get st.sessions id with
  | none =>
      have hv : st.Consume id = (st, "", false) := by
        simp only [AuthSessionStore.Consume, hg]
      rw [hv] at hsucc
      simp [Prod.ext_iff] at hsucc
  | some sess =>
      by_cases he : sess.IDToken = ""
      · have hv : st.Consume id = (st, "", false) := by
          simp only [AuthSessionStore.Consume, hg, if_pos he]
        rw [hv] at hsucc
        simp [Prod.ext_iff] at hsucc
      · have hv : st.Consume id =
            ({ st with sessions := GoMap.delete st.sessions id },
             sess.IDToken, true) := by
          simp only [AuthSessionStore.Consume, hg, if_neg he]
        rw [hv] at hsucc
        have hst' : st' =
            { st with sessions := GoMap.delete st.sessions id } :=
          (congrArg Prod.fst hsucc).symm
        have ht : t = sess.IDToken :=
          (congrArg (fun r => r.2.1) hsucc).symm
        have hnone : GoMap.get st'.sessions id = none := by
          rw [hst']
          exact GoMap.get_delete_self st.sessions id
        refine ⟨⟨sess, rfl, ht.symm, by rw [ht]; exact he⟩, hnone, ?_⟩
        simp only [AuthSessionStore.Consume, hnone]

/-- A store whose single pending login has completed with token "tokX". -/
def sampleAuthStore : AuthSessionStore :=
  { sessions := [("login1",
      { ID := "login1", Provider := "google", CodeVerifier := "ver",
        CreatedAt := 0, IDToken := "tokX" })],
    ttl := 300 }

/-- Witness for C8: consuming "login1" from `sampleAuthStore`. -/
theorem consume_single_use_witness :
    sampleAuthStore.Consume "login1" =
      ({ sessions := [], ttl := 300 }, "tokX", true) ∧
    ((∃ sess, GoMap.get sampleAuthStore.sessions "login1" = some sess ∧
        sess.IDToken = "tokX" ∧ "tokX" ≠ "") ∧
     GoMap.get (AuthSessionStore.sessions
       { sessions := [], ttl := 300 }) "login1" = none ∧
     AuthSessionStore.Consume { sessions := [], ttl := 300 } "login1" =
       ({ sessions := [], ttl := 300 }, "", false)) :=
  ⟨by decide, consume_single_use sampleAuthStore
    { sessions := [], ttl := 300 } "login1" "tokX" (by decide)⟩

/-- C10: `Consume` does not check entry age.  On an entry whose `idToken`
is set and whose age exceeds the TTL (and which the sweeper has not yet
removed), `Consume` still returns the token and deletes the entry, while
`Get` at the same instant deletes the entry and reports absent. -/
theorem consume_ignores_ttl (st : AuthSessionStore) (id : String)
    (sess : AuthSession) (now : Nat)
    (hget : GoMap.get st.sessions id = some sess)
    (htok : sess.IDToken ≠ "")
    (hexp : st.ttl < now - sess.CreatedAt) :
    st.Consume id =
      ({ st with sessions := GoMap.delete st.sessions id },
       sess.IDToken, true) ∧
    st.Get id now =
      ({ st with sessions := GoMap.delete st.sessions id }, none) := by
  constructor
  · simp only [AuthSessionStore.Consume, hget, if_neg htok]
  · simp only [AuthSessionStore.Get, hget, if_pos hexp]

/-- A store whose single pending login completed at time 0 under TTL 300. -/
def sampleExpiredStore : AuthSessionStore := sampleAuthStore

/-- Witness for C10: the entry of `sampleExpiredStore` is 1000 time units
old against a TTL of 300, yet `Consume` still hands out the token while
`Get` expires it. -/
theorem consume_ignores_ttl_witness :
    GoMap.get sampleExpiredStore.sessions "login1" =
      some { ID := "login1", Provider := "google", CodeVerifier := "ver",
             CreatedAt := 0, IDToken := "tokX" } ∧
    ("tokX" : String) ≠ "" ∧
    sampleExpiredStore.ttl < 1000 - 0 ∧
    (sampleExpiredStore.Consume "login1" =
      ({ sampleExpiredStore with
          sessions := GoMap.delete sampleExpiredStore.sessions "login1" },
       "tokX", true) ∧
     sampleExpiredStore.Get "login1" 1000 =
      ({ sampleExpiredStore with
          sessions := GoMap.delete sampleExpiredStore.sessions "login1" },
       none)) :=
  ⟨by decide, by decide, by decide,
   consume_ignores_ttl sampleExpiredStore "login1"
     { ID := "login1", Provider := "google", CodeVerifier := "ver",
       CreatedAt := 0, IDToken := "tokX" } 1000
     (by decide) (by decide) (by decide)⟩

end Phosphor
